import Mathlib

/-!
Shallow embedding of src/hw2/stock_price_tracker.py, a Streamlit stock
price tracker backed by the Twelve Data HTTP API.  Modelling choices:
prices are exact decimals (the source holds them in floats but only
parses decimal literals and compares, aggregates and displays them),
JSON payloads are inductive data, raised-and-caught exceptions are
explicit outcome
constructors, and each outbound HTTP call takes the provider behaviour
as a parameter.  Dates are modelled at day granularity, as day numbers
under the standard civil-calendar correspondence, because the program
only formats dates as YYYY-MM-DD and compares them chronologically.
-/

/-- Calendar date (Gregorian). -/
structure Date where
  year : Nat
  month : Nat
  day : Nat
deriving DecidableEq, Repr

/-- Day number of a date: days since 0000-03-01, by the standard
era-based days-from-civil algorithm.  Used to model datetime subtraction
and chronological comparison. -/
def Date.toDays (dt : Date) : Nat :=
  let y := if dt.month ≤ 2 then dt.year - 1 else dt.year
  let era := y / 400
  let yoe := y % 400
  let mp := if 2 < dt.month then dt.month - 3 else dt.month + 9
  let doy := (153 * mp + 2) / 5 + dt.day - 1
  let doe := yoe * 365 + yoe / 4 - yoe / 100 + doy
  era * 146097 + doe

/-- Date of a day number, by the standard era-based civil-from-days
algorithm (inverse of Date.toDays on valid dates). -/
def Date.ofDays (z : Nat) : Date :=
  let era := z / 146097
  let doe := z % 146097
  let yoe := (doe - doe / 1460 + doe / 36524 - doe / 146096) / 365
  let y := yoe + era * 400
  let doy := doe - (365 * yoe + yoe / 4 - yoe / 100)
  let mp := (5 * doy + 2) / 153
  let d := doy - (153 * mp + 2) / 5 + 1
  let m := if mp < 10 then mp + 3 else mp - 9
  { year := if m ≤ 2 then y + 1 else y, month := m, day := d }

/-- Zero-pad a natural number to the given width, as strftime does for
the %Y, %m and %d fields. -/
def padNum (width n : Nat) : String :=
  let s := toString n
  String.mk (List.replicate (width - s.length) '0') ++ s

/-- Format a date as an ISO YYYY-MM-DD string, modelling
strftime("%Y-%m-%d"). -/
def Date.isoFormat (dt : Date) : String :=
  padNum 4 dt.year ++ "-" ++ padNum 2 dt.month ++ "-" ++ padNum 2 dt.day

/-- Gregorian leap-year test. -/
def isLeapYear (y : Nat) : Bool :=
  y % 4 = 0 && (y % 100 ≠ 0 || y % 400 = 0)

/-- Length of a month in a given year. -/
def daysInMonth (y m : Nat) : Nat :=
  if m = 2 then (if isLeapYear y then 29 else 28)
  else if m = 4 ∨ m = 6 ∨ m = 9 ∨ m = 11 then 30
  else 31

/-- ASCII uppercase of one character; str.upper on the ASCII range,
which is all a ticker symbol uses. -/
def upperChar (c : Char) : Char :=
  if 97 ≤ c.toNat ∧ c.toNat ≤ 122 then Char.ofNat (c.toNat - 32) else c

/-- Python str.upper, restricted to the ASCII range. -/
def pyUpper (s : String) : String := String.mk (s.toList.map upperChar)

/-- Python str.strip: remove leading and trailing whitespace. -/
def pyStrip (s : String) : String :=
  String.mk ((s.toList.dropWhile Char.isWhitespace).reverse.dropWhile
    Char.isWhitespace).reverse

/-- Split a character list on a separator character; the result always
has one more group than there are separators. -/
def splitOnChar (sep : Char) : List Char → List (List Char)
  | [] => [[]]
  | c :: cs =>
    let rest := splitOnChar sep cs
    if c = sep then [] :: rest
    else
      match rest with
      | [] => [[c]]
      | g :: gs => (c :: g) :: gs

/-- Parse a non-empty all-digit character list as a natural number. -/
def digitsToNat? (l : List Char) : Option Nat :=
  if l ≠ [] ∧ l.all Char.isDigit then
    some (l.foldl (fun acc c => 10 * acc + (c.toNat - 48)) 0)
  else none

/-- Parse an ISO YYYY-MM-DD string to its day number.  This models
pandas.to_datetime restricted to the date strings the 1day interval of
the provider delivers; an unparsable string yields none, which the
caller turns into the exception path of the source. -/
def parseDate (s : String) : Option Nat :=
  match (splitOnChar '-' s.toList).map digitsToNat? with
  | [some y, some m, some d] =>
    if 1 ≤ m ∧ m ≤ 12 ∧ 1 ≤ d ∧ d ≤ daysInMonth y m then
      some (Date.toDays { year := y, month := m, day := d })
    else none
  | _ => none

/-- Exact decimal number with value mantissa / 10 ^ scale.  The source
holds prices in machine floats, but every number it handles is parsed
from a decimal literal and is only ever compared, aggregated by max/min
and displayed, so numbers are modelled as exact decimals. -/
structure Dec where
  mantissa : Int
  scale : Nat
deriving DecidableEq, Repr

/-- Rational value of a decimal, the semantic reading of Dec. -/
def Dec.toRat (d : Dec) : ℚ := (d.mantissa : ℚ) / (10 : ℚ) ^ d.scale

/-- Order on decimals by cross multiplication (agrees with the order of
their rational values). -/
def Dec.le (a b : Dec) : Prop :=
  a.mantissa * (10 : Int) ^ b.scale ≤ b.mantissa * (10 : Int) ^ a.scale

instance : DecidableRel Dec.le :=
  fun a b =>
    inferInstanceAs (Decidable (a.mantissa * (10 : Int) ^ b.scale ≤ b.mantissa * (10 : Int) ^ a.scale))

/-- Binary max on decimals, as the float max underlying the pandas
aggregation. -/
instance : Max Dec := ⟨fun a b => if Dec.le a b then b else a⟩

/-- Binary min on decimals, as the float min underlying the pandas
aggregation. -/
instance : Min Dec := ⟨fun a b => if Dec.le a b then a else b⟩

/-- Parse a plain decimal literal (optional sign, integer part, optional
fractional part) into an exact decimal.  This models pandas.to_numeric
with coercion on the numeric strings of the provider payload: an
unparsable field becomes none (NaN in the source). -/
def parseDecimal (s : String) : Option Dec :=
  let signed : Int × List Char :=
    match s.toList with
    | '-' :: rest => (-1, rest)
    | '+' :: rest => (1, rest)
    | l => (1, l)
  match splitOnChar '.' signed.2 with
  | [a] => (digitsToNat? a).map fun n => { mantissa := signed.1 * n, scale := 0 }
  | [a, b] =>
    match digitsToNat? a, digitsToNat? b with
    | some ip, some fp =>
      some { mantissa := signed.1 * (ip * 10 ^ b.length + fp), scale := b.length }
    | _, _ => none
  | _ => none

/-- Raw per-day record of the time_series values array: all fields
arrive as JSON strings. -/
structure RawRecord where
  datetime : String
  «open» : String
  high : String
  low : String
  close : String
  volume : String
deriving DecidableEq, Repr

/-- One row of the normalized data frame: the datetime column parsed to
a day number, the numeric columns parsed with coercion (none models
NaN). -/
structure Bar where
  date : Nat
  «open» : Option Dec
  high : Option Dec
  low : Option Dec
  close : Option Dec
  volume : Option Dec
deriving DecidableEq, Repr

/-- JSON scalar as delivered for the quote fields: the provider sends
numbers or numeric strings; Python truthiness distinguishes them. -/
inductive JVal where
  | num (d : Dec)
  | str (s : String)
deriving DecidableEq, Repr

/-- Quote response payload: the fields the source reads, each optional
(dict get).  A decoded quote dict is modelled as always carrying at
least these slots, so Python dict truthiness coincides with presence. -/
structure QuoteData where
  status : Option String
  close : Option JVal
  change : Option JVal
  percent_change : Option JVal
deriving DecidableEq, Repr

/-- Time-series response payload: optional status, message and values
fields, the only ones the source reads. -/
structure TSResponse where
  status : Option String
  message : Option String
  values : Option (List RawRecord)
deriving DecidableEq, Repr

/-- Body of an HTTP response: either text on which JSON decoding raises,
or a decoded payload. -/
inductive Body (β : Type) where
  | invalid (desc : String)
  | json (payload : β)
deriving DecidableEq, Repr

/-- Behaviour of one outbound requests.get call: a raised transport
exception (timeout, connection failure) or a response with a status code
and a body. -/
inductive HttpOutcome (β : Type) where
  | exn (msg : String)
  | resp (code : Nat) (body : Body β)
deriving DecidableEq, Repr

/-- BASE_URL constant of the source (line 21). -/
def BASE_URL : String := "https://api.twelvedata.com"

/-- API_KEY resolution (line 20): os.getenv with the literal demo
fallback. -/
def resolveApiKey (env : Option String) : String := env.getD "demo"

/-- One outbound GET request: full URL and query parameters in order. -/
structure Request where
  url : String
  params : List (String × String)
deriving DecidableEq, Repr

/-- Time-series request built by fetch_stock_data (lines 28-45): the
window is the 10 calendar days up to now, both endpoints rendered as ISO
dates; now is a day number so the timedelta subtraction is day
arithmetic, as in the source. -/
def tsRequest (symbol apikey : String) (today : Nat) : Request :=
  { url := BASE_URL ++ "/time_series"
    params := [
      ("symbol", pyUpper symbol),
      ("interval", "1day"),
      ("start_date", (Date.ofDays (today - 10)).isoFormat),
      ("end_date", (Date.ofDays today).isoFormat),
      ("apikey", apikey),
      ("format", "JSON")] }

/-- Quote request built by fetch_current_quote (lines 87-91). -/
def quoteRequest (symbol apikey : String) : Request :=
  { url := BASE_URL ++ "/quote"
    params := [("symbol", pyUpper symbol), ("apikey", apikey)] }

/-- Row-wise normalization of the values array (lines 59-67): the
datetime column conversion raises on any unparsable entry (none result
overall), while the numeric columns are converted with coercion, so a
bad numeric field never drops its record. -/
def normalizeBars : List RawRecord → Option (List Bar)
  | [] => some []
  | r :: rs =>
    match parseDate r.datetime, normalizeBars rs with
    | some d, some bs =>
      some ({ date := d, «open» := parseDecimal r.«open», high := parseDecimal r.high,
              low := parseDecimal r.low, close := parseDecimal r.close,
              volume := parseDecimal r.volume } :: bs)
    | _, _ => none

/-- Chronological order on rows, the sort key of df.sort_values. -/
def barLE (a b : Bar) : Prop := a.date ≤ b.date

instance : DecidableRel barLE :=
  fun a b => inferInstanceAs (Decidable (a.date ≤ b.date))

instance : IsTotal Bar barLE := ⟨fun a b => Nat.le_total a.date b.date⟩

instance : IsTrans Bar barLE := ⟨fun _ _ _ h h2 => Nat.le_trans h h2⟩

/-- Sorting step of line 70, df.sort_values("datetime"). -/
def sortBars (l : List Bar) : List Bar := List.insertionSort barLE l

/-- Truncation step of line 73, df.tail(7): the last 7 rows. -/
def tail7 (l : List Bar) : List Bar := l.drop (l.length - 7)

/-- raise_for_status raises HTTPError exactly for status codes 400-599. -/
def httpError (code : Nat) : Prop := 400 ≤ code ∧ code < 600

instance (c : Nat) : Decidable (httpError c) :=
  inferInstanceAs (Decidable (400 ≤ c ∧ c < 600))

/-- Stand-in for str(e) of a raised HTTPError. -/
def httpErrMsg (code : Nat) : String := "HTTP status " ++ toString code

/-- Message of the no-data branch (line 57). -/
def noDataMsg (symbol : String) : String :=
  "No data found for symbol " ++ symbol ++ ". Please check if the symbol is valid."

/-- fetch_stock_data (lines 23-80), with the provider behaviour for the
issued tsRequest passed as the outcome argument (the request itself is
tsRequest, recorded by main).  Every exception of the body is caught:
transport errors and HTTP error statuses map to the Network error
message, a JSON decode failure or an unparsable datetime to the Error
processing data message (whose tail stands for str(e)).  Result is the
(data frame, error message) pair of the source. -/
def fetch_stock_data (symbol : String) (o : HttpOutcome TSResponse) :
    Option (List Bar) × Option String :=
  match o with
  | .exn m => (none, some ("Network error: " ++ m))
  | .resp code body =>
    if httpError code then (none, some ("Network error: " ++ httpErrMsg code))
    else
      match body with
      | .invalid m => (none, some ("Error processing data: " ++ m))
      | .json r =>
        if r.status = some "error" then
          (none, some (r.message.getD "API returned an error"))
        else
          match r.values with
          | none => (none, some (noDataMsg symbol))
          | some vs =>
            if vs = [] then (none, some (noDataMsg symbol))
            else
              match normalizeBars vs with
              | none => (none, some "Error processing data: unparsable datetime")
              | some bars => (some (tail7 (sortBars bars)), none)

/-- fetch_current_quote (lines 82-104), with the provider behaviour for
the issued quoteRequest passed as the outcome argument: the bare except
swallows every raised failure (transport error, HTTP error status, JSON
decode failure), and an explicit error status also yields none. -/
def fetch_current_quote (o : HttpOutcome QuoteData) : Option QuoteData :=
  match o with
  | .exn _ => none
  | .resp code body =>
    if httpError code then none
    else
      match body with
      | .invalid _ => none
      | .json q => if q.status = some "error" then none else some q

/-- Python truthiness of an optional JSON scalar: absent, the number 0
and the empty string are falsy. -/
def truthy : Option JVal → Bool
  | none => false
  | some (.num d) => d.mantissa ≠ 0
  | some (.str s) => s ≠ ""

/-- float() conversion of a JSON scalar; none models a raised ValueError
(which the source would not catch). -/
def jfloat : JVal → Option Dec
  | .num d => some d
  | .str s => parseDecimal s

/-- Metrics emitted by display_stock_info, each absent when its metric
call is skipped or never reached, plus whether a metric evaluation
raised: a truthy quote field that float() cannot convert raises an
uncaught ValueError at line 146 or 154, aborting the body right there,
so metrics already emitted stay on screen and everything after the
raising line is never emitted. -/
structure DisplayInfo where
  currentPrice : Option Dec
  dailyChange : Option (Dec × Dec)
  weekHigh : Option Dec
  weekLow : Option Dec
  raised : Bool := false
deriving DecidableEq, Repr

/-- Range metrics of display_stock_info (lines 158-163), reached only
when no earlier metric evaluation raised: the pandas max/min skip
missing values (a non-empty frame whose column is entirely missing
renders a NaN metric, modelled as none). -/
def displayRange (cp : Option Dec) (dc : Option (Dec × Dec)) (bars : List Bar) : DisplayInfo :=
  { currentPrice := cp, dailyChange := dc,
    weekHigh := if bars = [] then none else (bars.filterMap Bar.high).max?,
    weekLow := if bars = [] then none else (bars.filterMap Bar.low).min?,
    raised := false }

/-- Daily-change metric of display_stock_info (lines 148-156), reached
with the current-price metric already emitted: skipped when either field
is falsy; float() on a truthy non-numeric field raises (line 154),
aborting before the range metrics. -/
def displayChange (cp : Option Dec) (q : QuoteData) (bars : List Bar) : DisplayInfo :=
  if truthy q.change && truthy q.percent_change then
    match q.change.bind jfloat, q.percent_change.bind jfloat with
    | some c, some p => displayRange cp (some (c, p)) bars
    | _, _ =>
      { currentPrice := cp, dailyChange := none, weekHigh := none, weekLow := none,
        raised := true }
  else displayRange cp none bars

/-- display_stock_info (lines 136-163).  The whole body is gated on the
quote dict being truthy and the frame being non-None; the metrics are
then emitted in source order, each gated on truthiness of its own
fields, and float() on a truthy non-numeric close raises (line 146)
before any metric is emitted. -/
def display_stock_info (quote_data : Option QuoteData) (df : Option (List Bar)) :
    DisplayInfo :=
  match quote_data, df with
  | some q, some bars =>
    if truthy q.close then
      match q.close.bind jfloat with
      | some v => displayChange (some v) q bars
      | none =>
        { currentPrice := none, dailyChange := none, weekHigh := none, weekLow := none,
          raised := true }
    else displayChange none q bars
  | _, _ => { currentPrice := none, dailyChange := none, weekHigh := none, weekLow := none }

/-- The close-metric evaluation (lines 144-146) does not raise: the
field is falsy and skipped, or float() converts it. -/
def closeNoRaise (q : QuoteData) : Prop :=
  truthy q.close = false ∨ (q.close.bind jfloat).isSome = true

instance (q : QuoteData) : Decidable (closeNoRaise q) :=
  inferInstanceAs (Decidable (truthy q.close = false ∨ (q.close.bind jfloat).isSome = true))

/-- The daily-change-metric evaluation (lines 148-156) does not raise:
the pair is skipped, or float() converts both fields. -/
def changeNoRaise (q : QuoteData) : Prop :=
  (truthy q.change && truthy q.percent_change) = false ∨
  ((q.change.bind jfloat).isSome = true ∧ (q.percent_change.bind jfloat).isSome = true)

instance (q : QuoteData) : Decidable (changeNoRaise q) :=
  inferInstanceAs (Decidable ((truthy q.change && truthy q.percent_change) = false ∨
    ((q.change.bind jfloat).isSome = true ∧ (q.percent_change.bind jfloat).isSome = true)))

/-- Terminal view of one run of the main body.  The exception view is
the framework error page shown when display_stock_info raises an
uncaught ValueError (line 208 has no handler): the metrics it emitted
before raising stay on screen but the chart and table never render. -/
inductive Render where
  | instructions
  | validationError
  | fetchError (msg : String)
  | noData (symbol : String)
  | success (info : DisplayInfo) (df : List Bar)
  | exception (partialInfo : DisplayInfo)
deriving DecidableEq, Repr

/-- Result of one run of main: the outbound requests actually issued, in
order, and the rendered outcome. -/
structure MainResult where
  calls : List Request
  render : Render
deriving DecidableEq, Repr

/-- Python truthiness of the error slot (line 195). -/
def errTruthy : Option String → Bool
  | none => false
  | some s => s ≠ ""

/-- main (lines 166-263) for one run, given the text box content, the
button state, the resolved credential, today as a day number, and the
provider behaviour of each of the two calls.  Lines 182-187 gate on
truthiness of the raw input and validate the stripped uppercased symbol
before any request is issued; both fetches then run (lines 192-193); the
error, empty-frame and success branches follow lines 195-228, with a
raise inside display_stock_info (line 208) aborting the page before the
chart and table; a falsy raw input falls through to the instructions
view (line 231). -/
def App.main (rawSymbol : String) (button : Bool) (apikey : String) (today : Nat)
    (tsO : HttpOutcome TSResponse) (qO : HttpOutcome QuoteData) : MainResult :=
  if rawSymbol ≠ "" ∧ (button = true ∨ rawSymbol ≠ "") then
    let symbol := pyUpper (pyStrip rawSymbol)
    if symbol.length < 1 ∨ symbol.length > 10 then
      { calls := [], render := .validationError }
    else
      let fetched := fetch_stock_data symbol tsO
      let quote_data := fetch_current_quote qO
      let calls := [tsRequest symbol apikey today, quoteRequest symbol apikey]
      if errTruthy fetched.2 then
        { calls := calls, render := .fetchError (fetched.2.getD "") }
      else
        match fetched.1 with
        | none => { calls := calls, render := .noData symbol }
        | some df =>
          if df = [] then { calls := calls, render := .noData symbol }
          else
            let info := display_stock_info quote_data (some df)
            if info.raised then { calls := calls, render := .exception info }
            else { calls := calls, render := .success info df }
  else { calls := [], render := .instructions }

/-! Concrete payloads used by the verification below: a fixed 10-day
window of 9 daily records (the provider delivers newest first), its
normalized 7-row frame, and a quote. -/

/-- Build a raw values record. -/
def mkRec (d o h l c v : String) : RawRecord :=
  { datetime := d, «open» := o, high := h, low := l, close := c, volume := v }

/-- Mock payload: 9 daily records inside a 10-day window ending
2026-10-12, newest first as the provider delivers them. -/
def mockValues9 : List RawRecord :=
  [ mkRec "2026-10-10" "151.00" "152.50" "150.00" "152.00" "1000100",
    mkRec "2026-10-09" "150.00" "155.00" "149.50" "151.00" "1000200",
    mkRec "2026-10-08" "149.00" "150.75" "148.00" "150.00" "1000300",
    mkRec "2026-10-07" "148.50" "149.25" "148.10" "149.00" "1000400",
    mkRec "2026-10-06" "149.75" "150.10" "148.90" "148.95" "1000500",
    mkRec "2026-10-05" "150.20" "151.30" "149.80" "150.90" "1000600",
    mkRec "2026-10-02" "151.40" "151.90" "150.60" "151.10" "1000700",
    mkRec "2026-10-01" "152.00" "152.40" "151.20" "151.80" "1000800",
    mkRec "2026-09-30" "153.00" "153.60" "152.10" "152.70" "1000900" ]

/-- Mock time-series response wrapping the 9 records, no error status. -/
def mockResp9 : TSResponse :=
  { status := none, message := none, values := some mockValues9 }

/-- Build a frame row with all numeric fields present. -/
def mkBar (d : Nat) (o h l c v : Dec) : Bar :=
  { date := d, «open» := some o, high := some h, low := some l, close := some c,
    volume := some v }

/-- Decimal with two fractional digits (value m / 100). -/
def dec2 (m : Int) : Dec := { mantissa := m, scale := 2 }

/-- Decimal integer (value m). -/
def dec0 (m : Int) : Dec := { mantissa := m, scale := 0 }

/-- The frame the pipeline produces from mockResp9: the 7 most recent of
the 9 records, in ascending date order (day numbers 740196 = 2026-10-02
through 740204 = 2026-10-10; 740197 and 740198 are the skipped
weekend). -/
def expected7 : List Bar :=
  [ mkBar 740196 (dec2 15140) (dec2 15190) (dec2 15060) (dec2 15110) (dec0 1000700),
    mkBar 740199 (dec2 15020) (dec2 15130) (dec2 14980) (dec2 15090) (dec0 1000600),
    mkBar 740200 (dec2 14975) (dec2 15010) (dec2 14890) (dec2 14895) (dec0 1000500),
    mkBar 740201 (dec2 14850) (dec2 14925) (dec2 14810) (dec2 14900) (dec0 1000400),
    mkBar 740202 (dec2 14900) (dec2 15075) (dec2 14800) (dec2 15000) (dec0 1000300),
    mkBar 740203 (dec2 15000) (dec2 15500) (dec2 14950) (dec2 15100) (dec0 1000200),
    mkBar 740204 (dec2 15100) (dec2 15250) (dec2 15000) (dec2 15200) (dec0 1000100) ]

/-- Mock quote of the derived-statistics scenario: close 150.25, change
-1.50, percent change -0.99, delivered as the numeric strings the
provider sends. -/
def c2Quote : QuoteData :=
  { status := none, close := some (.str "150.25"), change := some (.str "-1.50"),
    percent_change := some (.str "-0.99") }

/-- Relation between a raw record and its normalized row: the date field
parsed, every numeric field the coercing parse of its string. -/
def normRel (r : RawRecord) (b : Bar) : Prop :=
  parseDate r.datetime = some b.date ∧
  b.«open» = parseDecimal r.«open» ∧ b.high = parseDecimal r.high ∧
  b.low = parseDecimal r.low ∧ b.close = parseDecimal r.close ∧
  b.volume = parseDecimal r.volume

/-- Failure classes of the quote fetch: raised transport error, HTTP
error status (raise_for_status), undecodable body, or explicit provider
error status. -/
def quoteFetchFails : HttpOutcome QuoteData → Bool
  | .exn _ => true
  | .resp code body =>
    decide (httpError code) ||
      match body with
      | .invalid _ => true
      | .json q => decide (q.status = some "error")

/-- Time-series response with an explicit error status but no message
field. -/
def errNoMsgResp : TSResponse := { status := some "error", message := none, values := none }

/-- Time-series response with an explicit error status whose message is
the empty string. -/
def errEmptyMsgResp : TSResponse :=
  { status := some "error", message := some "", values := none }

/-- Values list containing one record whose open and low fields are not
parseable as numbers. -/
def c8Values : List RawRecord :=
  [ mkRec "2026-10-09" "n/a" "155.00" "" "151.00" "1000200" ]

/-- Quote response carrying an explicit error status. -/
def qErrResp : QuoteData :=
  { status := some "error", close := none, change := none, percent_change := none }

/-- Healthy quote payload (status absent, all fields numeric strings). -/
def qOkResp : QuoteData :=
  { status := none, close := some (.str "150.25"), change := some (.str "-1.50"),
    percent_change := some (.str "-0.99") }

/-! Order facts about exact decimals, folds computing the pandas max and
min, and structural facts about the normalization pipeline. -/

set_option maxRecDepth 40000

/-- Cross-multiplication order agrees with the order of rational
values. -/
theorem Dec.le_iff (a b : Dec) : Dec.le a b ↔ a.toRat ≤ b.toRat := by
  simp only [Dec.le, Dec.toRat]
  rw [div_le_div_iff₀ (by positivity) (by positivity)]
  exact_mod_cast Iff.rfl

/-- Reflexivity of the decimal order. -/
theorem Dec.le_refl (a : Dec) : Dec.le a a := le_rfl

/-- Transitivity of the decimal order. -/
theorem Dec.le_trans {a b c : Dec} (h1 : Dec.le a b) (h2 : Dec.le b c) : Dec.le a c := by
  rw [Dec.le_iff] at *
  exact h1.trans h2

/-- Totality of the decimal order. -/
theorem Dec.le_total (a b : Dec) : Dec.le a b ∨ Dec.le b a := by
  rw [Dec.le_iff, Dec.le_iff]
  exact LinearOrder.le_total _ _

/-- The max of two decimals dominates the left argument. -/
theorem Dec.le_max_left (a b : Dec) : Dec.le a (max a b) := by
  show Dec.le a (if Dec.le a b then b else a)
  split
  · assumption
  · exact Dec.le_refl a

/-- The max of two decimals dominates the right argument. -/
theorem Dec.le_max_right (a b : Dec) : Dec.le b (max a b) := by
  show Dec.le b (if Dec.le a b then b else a)
  split
  · exact Dec.le_refl b
  · rcases Dec.le_total a b with h | h
    · exact absurd h (by assumption)
    · exact h

/-- The max of two decimals is one of them. -/
theorem Dec.max_eq_or (a b : Dec) : max a b = a ∨ max a b = b := by
  show (if Dec.le a b then b else a) = a ∨ (if Dec.le a b then b else a) = b
  split
  · exact Or.inr rfl
  · exact Or.inl rfl

/-- The min of two decimals is one of them. -/
theorem Dec.min_eq_or (a b : Dec) : min a b = a ∨ min a b = b := by
  show (if Dec.le a b then a else b) = a ∨ (if Dec.le a b then a else b) = b
  split
  · exact Or.inl rfl
  · exact Or.inr rfl

/-- The min of two decimals is below the left argument. -/
theorem Dec.min_le_left (a b : Dec) : Dec.le (min a b) a := by
  show Dec.le (if Dec.le a b then a else b) a
  split
  · exact Dec.le_refl a
  · rcases Dec.le_total a b with h | h
    · exact absurd h (by assumption)
    · exact h

/-- The min of two decimals is below the right argument. -/
theorem Dec.min_le_right (a b : Dec) : Dec.le (min a b) b := by
  show Dec.le (if Dec.le a b then a else b) b
  split
  · assumption
  · exact Dec.le_refl b

/-- A max fold returns its seed or a list element. -/
theorem foldlMax_mem (l : List Dec) (x : Dec) : l.foldl max x = x ∨ l.foldl max x ∈ l := by
  induction l generalizing x with
  | nil => exact Or.inl rfl
  | cons a t ih =>
    rw [List.foldl_cons]
    rcases ih (max x a) with h | h
    · rcases Dec.max_eq_or x a with h2 | h2
      · exact Or.inl (h.trans h2)
      · exact Or.inr (by rw [h, h2]; exact List.mem_cons_self a t)
    · exact Or.inr (List.mem_cons_of_mem a h)

/-- A max fold dominates its seed. -/
theorem le_foldlMax (l : List Dec) (x : Dec) : Dec.le x (l.foldl max x) := by
  induction l generalizing x with
  | nil => exact Dec.le_refl x
  | cons a t ih =>
    rw [List.foldl_cons]
    exact Dec.le_trans (Dec.le_max_left x a) (ih (max x a))

/-- A max fold dominates every list element. -/
theorem mem_le_foldlMax (l : List Dec) (x y : Dec) (hy : y ∈ l) :
    Dec.le y (l.foldl max x) := by
  induction l generalizing x with
  | nil => cases hy
  | cons a t ih =>
    rw [List.foldl_cons]
    rcases List.mem_cons.mp hy with h | h
    · subst h
      exact Dec.le_trans (Dec.le_max_right x y) (le_foldlMax t (max x y))
    · exact ih (max x a) h

/-- The max of a non-empty decimal list is an element dominating all
elements. -/
theorem max?_spec (l : List Dec) (h : l ≠ []) :
    ∃ m, l.max? = some m ∧ m ∈ l ∧ ∀ y ∈ l, Dec.le y m := by
  match l with
  | [] => exact absurd rfl h
  | x :: xs =>
    refine ⟨xs.foldl max x, rfl, ?_, ?_⟩
    · rcases foldlMax_mem xs x with h2 | h2
      · rw [h2]; exact List.mem_cons_self x xs
      · exact List.mem_cons_of_mem x h2
    · intro y hy
      rcases List.mem_cons.mp hy with h2 | h2
      · subst h2; exact le_foldlMax xs y
      · exact mem_le_foldlMax xs x y h2

/-- A min fold returns its seed or a list element. -/
theorem foldlMin_mem (l : List Dec) (x : Dec) : l.foldl min x = x ∨ l.foldl min x ∈ l := by
  induction l generalizing x with
  | nil => exact Or.inl rfl
  | cons a t ih =>
    rw [List.foldl_cons]
    rcases ih (min x a) with h | h
    · rcases Dec.min_eq_or x a with h2 | h2
      · exact Or.inl (h.trans h2)
      · exact Or.inr (by rw [h, h2]; exact List.mem_cons_self a t)
    · exact Or.inr (List.mem_cons_of_mem a h)

/-- A min fold is below its seed. -/
theorem foldlMin_le (l : List Dec) (x : Dec) : Dec.le (l.foldl min x) x := by
  induction l generalizing x with
  | nil => exact Dec.le_refl x
  | cons a t ih =>
    rw [List.foldl_cons]
    exact Dec.le_trans (ih (min x a)) (Dec.min_le_left x a)

/-- A min fold is below every list element. -/
theorem foldlMin_le_mem (l : List Dec) (x y : Dec) (hy : y ∈ l) :
    Dec.le (l.foldl min x) y := by
  induction l generalizing x with
  | nil => cases hy
  | cons a t ih =>
    rw [List.foldl_cons]
    rcases List.mem_cons.mp hy with h | h
    · subst h
      exact Dec.le_trans (foldlMin_le t (min x y)) (Dec.min_le_right x y)
    · exact ih (min x a) h

/-- The min of a non-empty decimal list is an element below all
elements. -/
theorem min?_spec (l : List Dec) (h : l ≠ []) :
    ∃ m, l.min? = some m ∧ m ∈ l ∧ ∀ y ∈ l, Dec.le m y := by
  match l with
  | [] => exact absurd rfl h
  | x :: xs =>
    refine ⟨xs.foldl min x, rfl, ?_, ?_⟩
    · rcases foldlMin_mem xs x with h2 | h2
      · rw [h2]; exact List.mem_cons_self x xs
      · exact List.mem_cons_of_mem x h2
    · intro y hy
      rcases List.mem_cons.mp hy with h2 | h2
      · subst h2; exact foldlMin_le xs y
      · exact foldlMin_le_mem xs x y h2

/-- Normalization succeeds whenever every datetime parses, regardless of
the numeric fields, and relates records to rows pointwise. -/
theorem normalizeBars_spec (vs : List RawRecord)
    (h : ∀ r ∈ vs, (parseDate r.datetime).isSome) :
    ∃ bars, normalizeBars vs = some bars ∧ List.Forall₂ normRel vs bars := by
  induction vs with
  | nil => exact ⟨[], rfl, List.Forall₂.nil⟩
  | cons r rs ih =>
    obtain ⟨d, hd⟩ : ∃ d, parseDate r.datetime = some d := by
      have := h r (List.mem_cons_self r rs)
      exact Option.isSome_iff_exists.mp this
    obtain ⟨bs, hbs, hrel⟩ := ih (fun x hx => h x (List.mem_cons_of_mem r hx))
    refine ⟨Bar.mk d (parseDecimal r.«open») (parseDecimal r.high) (parseDecimal r.low)
        (parseDecimal r.close) (parseDecimal r.volume) :: bs, ?_, ?_⟩
    · rw [normalizeBars, hd, hbs]
    · exact List.Forall₂.cons ⟨hd, rfl, rfl, rfl, rfl, rfl⟩ hrel

/-- The sorting step yields a frame sorted by the chronological key. -/
theorem sortBars_sorted (l : List Bar) : List.Sorted barLE (sortBars l) :=
  List.sorted_insertionSort barLE l

/-- Sorting preserves the number of rows. -/
theorem sortBars_length (l : List Bar) : (sortBars l).length = l.length :=
  (List.perm_insertionSort barLE l).length_eq

/-- The truncation step keeps at most 7 rows. -/
theorem tail7_length_le (l : List Bar) : (tail7 l).length ≤ 7 := by
  simp only [tail7, List.length_drop]
  omega

/-- The truncation step preserves sortedness. -/
theorem tail7_sorted {l : List Bar} (h : List.Sorted barLE l) :
    List.Sorted barLE (tail7 l) :=
  h.sublist (List.drop_sublist _ _)

/-- The truncation step of a non-empty frame is non-empty. -/
theorem tail7_ne_nil {l : List Bar} (h : l ≠ []) : tail7 l ≠ [] := by
  intro hc
  apply h
  have h1 : (tail7 l).length = 0 := by rw [hc]; rfl
  simp only [tail7, List.length_drop] at h1
  exact List.length_eq_zero.mp (by omega)

/-- Appending to a non-empty string is non-empty. -/
theorem stringAppend_ne_empty (s t : String) (h : s ≠ "") : s ++ t ≠ "" := by
  intro hc
  apply h
  cases s with
  | mk l =>
    cases t with
    | mk m =>
      have hd : l ++ m = [] := congrArg String.data hc
      rcases List.append_eq_nil.mp hd with ⟨h1, _⟩
      rw [h1]

/-- On a delivered, non-error response with a non-empty values list
whose datetimes normalize, the fetch returns the truncated sorted frame
and no error. -/
theorem fetch_success (sym : String) (code : Nat) (r : TSResponse) (vs : List RawRecord)
    (bars : List Bar) (hcode : ¬ httpError code) (hstatus : r.status ≠ some "error")
    (hvalues : r.values = some vs) (hne : vs ≠ []) (hnorm : normalizeBars vs = some bars) :
    fetch_stock_data sym (.resp code (.json r)) = (some (tail7 (sortBars bars)), none) := by
  simp only [fetch_stock_data, if_neg hcode, if_neg hstatus, hvalues, if_neg hne, hnorm]

/-- The daily-change step leaves the already-emitted current-price
metric unchanged in every branch, raise included. -/
theorem displayChange_currentPrice (cp : Option Dec) (q : QuoteData) (bars : List Bar) :
    (displayChange cp q bars).currentPrice = cp := by
  unfold displayChange
  split
  · split <;> simp [displayRange]
  · simp [displayRange]

/-- When the close evaluation does not raise, the body continues into
the daily-change step with the emitted current price. -/
theorem display_eq_displayChange (q : QuoteData) (bars : List Bar) (h : closeNoRaise q) :
    ∃ cp, display_stock_info (some q) (some bars) = displayChange cp q bars := by
  rcases h with h | h
  · exact ⟨none, by simp [display_stock_info, h]⟩
  · obtain ⟨v, hv⟩ := Option.isSome_iff_exists.mp h
    cases htc : truthy q.close with
    | false => exact ⟨none, by simp [display_stock_info, htc]⟩
    | true => exact ⟨some v, by simp [display_stock_info, htc, hv]⟩

/-- When the daily-change evaluation does not raise, the body continues
into the range step. -/
theorem displayChange_eq_range (cp : Option Dec) (q : QuoteData) (bars : List Bar)
    (h : changeNoRaise q) :
    ∃ dc, displayChange cp q bars = displayRange cp dc bars := by
  rcases h with h | ⟨h1, h2⟩
  · exact ⟨none, by simp [displayChange, h]⟩
  · obtain ⟨c, hc⟩ := Option.isSome_iff_exists.mp h1
    obtain ⟨p, hp⟩ := Option.isSome_iff_exists.mp h2
    cases hb : (truthy q.change && truthy q.percent_change) with
    | false => exact ⟨none, by simp [displayChange, hb]⟩
    | true => exact ⟨some (c, p), by simp [displayChange, hb, hc, hp]⟩

/-- A falsy close field emits no current-price metric, whatever happens
later in the body. -/
theorem display_currentPrice_none (q : QuoteData) (bars : List Bar)
    (h : truthy q.close = false) :
    (display_stock_info (some q) (some bars)).currentPrice = none := by
  simp [display_stock_info, h, displayChange_currentPrice]

/-- A skipped daily-change pair (either field falsy) emits no
daily-change metric, whatever happened at the close metric. -/
theorem display_dailyChange_none (q : QuoteData) (bars : List Bar)
    (h : (truthy q.change && truthy q.percent_change) = false) :
    (display_stock_info (some q) (some bars)).dailyChange = none := by
  have hch : ∀ cp, (displayChange cp q bars).dailyChange = none := fun cp => by
    simp [displayChange, h, displayRange]
  cases htc : truthy q.close with
  | false => simp [display_stock_info, htc, hch]
  | true =>
    cases hv : q.close.bind jfloat with
    | none => simp [display_stock_info, htc, hv]
    | some v => simp [display_stock_info, htc, hv, hch]

/-- C1: for every delivered, non-error time-series response with a
non-empty values array whose datetimes all parse, fetch_stock_data
returns a frame sorted ascending by date with at most 7 rows; and on the
fixed 9-record mock payload it returns exactly the 7 most recent records
by date, in ascending order. -/
theorem fetch_series_sorted_bounded :
    (∀ (sym : String) (code : Nat) (r : TSResponse) (vs : List RawRecord),
      ¬ httpError code → r.status ≠ some "error" → r.values = some vs → vs ≠ [] →
      (∀ rec ∈ vs, (parseDate rec.datetime).isSome) →
      ∃ df, fetch_stock_data sym (.resp code (.json r)) = (some df, none) ∧
        List.Sorted (· ≤ ·) (df.map Bar.date) ∧ df.length ≤ 7) ∧
    fetch_stock_data "AAPL" (.resp 200 (.json mockResp9)) = (some expected7, none) := by
  constructor
  · intro sym code r vs hcode hstatus hvalues hne hdates
    obtain ⟨bars, hnorm, _⟩ := normalizeBars_spec vs hdates
    refine ⟨tail7 (sortBars bars),
      fetch_success sym code r vs bars hcode hstatus hvalues hne hnorm, ?_, tail7_length_le _⟩
    exact List.pairwise_map.mpr (tail7_sorted (sortBars_sorted bars))
  · decide

/-- C1 witness: the general part instantiated at the concrete mock
payload. -/
theorem fetch_series_sorted_bounded_witness :
    ∃ df, fetch_stock_data "NVDA" (HttpOutcome.resp 200 (Body.json mockResp9)) = (some df, none) ∧
      List.Sorted (· ≤ ·) (df.map Bar.date) ∧ df.length ≤ 7 :=
  fetch_series_sorted_bounded.1 "NVDA" 200 mockResp9 mockValues9 (by decide) (by decide) rfl
    (by decide) (by decide)

/-- C4: on a delivered response with no error status whose values array
is absent or empty, fetch_stock_data returns no frame and the no-data
message, and that message contains the requested symbol. -/
theorem no_values_no_data_message :
    ∀ (sym : String) (code : Nat) (r : TSResponse),
      ¬ httpError code → r.status ≠ some "error" →
      (r.values = none ∨ r.values = some []) →
      fetch_stock_data sym (.resp code (.json r)) = (none, some (noDataMsg sym)) ∧
      ∃ pre post, noDataMsg sym = pre ++ sym ++ post := by
  intro sym code r hcode hstatus hvals
  refine ⟨?_, "No data found for symbol ", ". Please check if the symbol is valid.", rfl⟩
  rcases hvals with h | h
  · simp [fetch_stock_data, if_neg hcode, if_neg hstatus, h]
  · simp [fetch_stock_data, if_neg hcode, if_neg hstatus, h]

/-- C4 witness: the theorem instantiated at an empty values array. -/
theorem no_values_no_data_message_witness :
    fetch_stock_data "FAKE"
      (HttpOutcome.resp 200 (Body.json { status := none, message := none, values := some [] })) =
      (none, some (noDataMsg "FAKE")) ∧
    ∃ pre post, noDataMsg "FAKE" = pre ++ "FAKE" ++ post :=
  no_values_no_data_message "FAKE" 200 _ (by decide) (by decide) (Or.inr rfl)

/-- C5 (amended): on a delivered response with an explicit error
status, fetch_stock_data returns no frame and the provider message when
the response carries one, otherwise the fixed default text. -/
theorem error_status_provider_message :
    ∀ (sym : String) (code : Nat) (r : TSResponse),
      ¬ httpError code → r.status = some "error" →
      fetch_stock_data sym (.resp code (.json r)) =
        (none, some (r.message.getD "API returned an error")) ∧
      ∀ m, r.message = some m →
        fetch_stock_data sym (.resp code (.json r)) = (none, some m) := by
  intro sym code r hcode hstatus
  constructor
  · simp [fetch_stock_data, if_neg hcode, hstatus]
  · intro m hm
    simp [fetch_stock_data, if_neg hcode, hstatus, hm]

/-- C5 witness: the theorem instantiated at an error response carrying
a message. -/
theorem error_status_provider_message_witness :
    fetch_stock_data "AAPL"
      (HttpOutcome.resp 200 (Body.json
        { status := some "error", message := some "symbol not found", values := none })) =
      (none, some "symbol not found") :=
  (error_status_provider_message "AAPL" 200 _ (by decide) rfl).2 "symbol not found" rfl

/-- C5 counterexample: an error response without a message field yields
the fixed default text, not provider text. -/
theorem error_status_missing_message_default :
    errNoMsgResp.message = none ∧
    fetch_stock_data "AAPL" (HttpOutcome.resp 200 (Body.json errNoMsgResp)) =
      (none, some "API returned an error") := by
  exact ⟨rfl, by decide⟩

/-- C7: for every symbol and credential, the time-series request
targets the time_series path with the symbol uppercased, daily interval,
ISO start and end dates spanning exactly the 10 calendar days up to
today, the credential, and JSON format. -/
theorem time_series_request_shape :
    ∀ (sym apikey : String) (today : Nat), 10 ≤ today →
      tsRequest sym apikey today =
        { url := BASE_URL ++ "/time_series",
          params := [("symbol", pyUpper sym), ("interval", "1day"),
            ("start_date", (Date.ofDays (today - 10)).isoFormat),
            ("end_date", (Date.ofDays today).isoFormat),
            ("apikey", apikey), ("format", "JSON")] } ∧
      (today - 10) + 10 = today := by
  intro sym apikey today h
  exact ⟨rfl, by omega⟩

/-- C7 witness: at day number 740206 (2026-10-12) the request carries
the concrete ISO window 2026-10-02 to 2026-10-12. -/
theorem time_series_request_shape_witness :
    10 ≤ 740206 ∧
    tsRequest "aapl" "demo" 740206 =
      { url := "https://api.twelvedata.com/time_series",
        params := [("symbol", "AAPL"), ("interval", "1day"),
          ("start_date", "2026-10-02"), ("end_date", "2026-10-12"),
          ("apikey", "demo"), ("format", "JSON")] } ∧
    (740206 - 10) + 10 = 740206 := by
  obtain ⟨h1, h2⟩ := time_series_request_shape "aapl" "demo" 740206 (by decide)
  exact ⟨by decide, h1.trans (by decide), h2⟩

/-- C8: when every datetime parses, normalization succeeds, keeps every
record, and fills each numeric field with the coercing parse of its
string (none when unparsable), never dropping a record or the
payload. -/
theorem normalize_coerces_numeric_fields :
    ∀ (vs : List RawRecord), (∀ r ∈ vs, (parseDate r.datetime).isSome) →
      ∃ bars, normalizeBars vs = some bars ∧ bars.length = vs.length ∧
        List.Forall₂ normRel vs bars := by
  intro vs h
  obtain ⟨bars, hb, hrel⟩ := normalizeBars_spec vs h
  exact ⟨bars, hb, hrel.length_eq.symm, hrel⟩

/-- C8 witness: the theorem instantiated at a record with two
unparsable numeric fields. -/
theorem normalize_coerces_numeric_fields_witness :
    (∀ r ∈ c8Values, (parseDate r.datetime).isSome) ∧
    ∃ bars, normalizeBars c8Values = some bars ∧ bars.length = c8Values.length ∧
      List.Forall₂ normRel c8Values bars :=
  ⟨by decide, normalize_coerces_numeric_fields c8Values (by decide)⟩

/-- C9 (amended): for every symbol and provider behaviour the fetch
returns normally with exactly one non-null component: a frame and no
error on success, or no frame and an error message, the message being
non-empty except when the provider sent an explicit error status with an
empty message string. -/
theorem fetch_total_exclusive :
    ∀ (sym : String) (o : HttpOutcome TSResponse),
      (∃ df, fetch_stock_data sym o = (some df, none)) ∨
      (∃ m, fetch_stock_data sym o = (none, some m) ∧
        (m = "" → ∃ code r, o = HttpOutcome.resp code (Body.json r) ∧
          r.status = some "error" ∧ r.message = some "")) := by
  intro sym o
  cases o with
  | exn msg =>
    right
    refine ⟨_, rfl, fun hc => absurd hc (stringAppend_ne_empty "Network error: " msg (by decide))⟩
  | resp code body =>
    by_cases hcode : httpError code
    · right
      refine ⟨"Network error: " ++ httpErrMsg code, by simp [fetch_stock_data, if_pos hcode], ?_⟩
      exact fun hc => absurd hc (stringAppend_ne_empty "Network error: " _ (by decide))
    · cases body with
      | invalid m =>
        right
        refine ⟨"Error processing data: " ++ m, by simp [fetch_stock_data, if_neg hcode], ?_⟩
        exact fun hc => absurd hc (stringAppend_ne_empty "Error processing data: " m (by decide))
      | json r =>
        by_cases hstatus : r.status = some "error"
        · right
          refine ⟨r.message.getD "API returned an error",
            by simp [fetch_stock_data, if_neg hcode, hstatus], ?_⟩
          intro hm
          refine ⟨code, r, rfl, hstatus, ?_⟩
          cases hmsg : r.message with
          | none => rw [hmsg] at hm; exact absurd hm (by decide)
          | some s =>
            rw [hmsg] at hm
            simp only [Option.getD_some] at hm
            rw [hm]
        · cases hv : r.values with
          | none =>
            right
            refine ⟨noDataMsg sym, by simp [fetch_stock_data, if_neg hcode, hstatus, hv], ?_⟩
            intro hc
            exact absurd hc (stringAppend_ne_empty _ _
              (stringAppend_ne_empty "No data found for symbol " sym (by decide)))
          | some vs =>
            by_cases hne : vs = []
            · right
              subst hne
              refine ⟨noDataMsg sym, by simp [fetch_stock_data, if_neg hcode, hstatus, hv], ?_⟩
              intro hc
              exact absurd hc (stringAppend_ne_empty _ _
                (stringAppend_ne_empty "No data found for symbol " sym (by decide)))
            · cases hnorm : normalizeBars vs with
              | none =>
                right
                refine ⟨"Error processing data: unparsable datetime",
                  by simp [fetch_stock_data, if_neg hcode, hstatus, hv, hne, hnorm], ?_⟩
                exact fun hc => absurd hc (by decide)
              | some bars =>
                exact Or.inl ⟨tail7 (sortBars bars),
                  fetch_success sym code r vs bars hcode hstatus hv hne hnorm⟩

/-- C9 witness: the theorem instantiated at a raised transport
error. -/
theorem fetch_total_exclusive_witness :
    (∃ df, fetch_stock_data "AAPL" (HttpOutcome.exn "timeout") = (some df, none)) ∨
    (∃ m, fetch_stock_data "AAPL" (HttpOutcome.exn "timeout") = (none, some m) ∧
      (m = "" → ∃ (code : Nat) (r : TSResponse),
        HttpOutcome.exn "timeout" = HttpOutcome.resp code (Body.json r) ∧
        r.status = some "error" ∧ r.message = some "")) :=
  fetch_total_exclusive "AAPL" (HttpOutcome.exn "timeout")

/-- C9 counterexample: an error status with an empty provider message
yields an empty error message, so the error slot is non-null but not
non-empty. -/
theorem empty_provider_message_empty_error :
    fetch_stock_data "AAPL" (HttpOutcome.resp 200 (Body.json errEmptyMsgResp)) =
      (none, some "") := by decide

/-- C2 (amended): when quote and frame are both present and no earlier
metric evaluation raises (a truthy close or change field that float()
cannot convert raises an uncaught ValueError, aborting the statistics
row), the 7-day high is the maximum of the present high values, the
7-day low the minimum of the present low values, the current price the
float of quote.close when close is truthy, and the daily change the pair
of quote change values when both are truthy; when the quote is absent
the whole statistics row, 7-day high and low included, is omitted.  On
the mock quote and series the four metrics are exactly 150.25,
(-1.50, -0.99), 155 and 148. -/
theorem display_stats_gated :
    (∀ (q : QuoteData) (bars : List Bar) (b : Bar) (x : Dec),
      closeNoRaise q → changeNoRaise q → b ∈ bars → b.high = some x →
      ∃ wh, (display_stock_info (some q) (some bars)).weekHigh = some wh ∧
        wh ∈ bars.filterMap Bar.high ∧ ∀ y ∈ bars.filterMap Bar.high, Dec.le y wh) ∧
    (∀ (q : QuoteData) (bars : List Bar) (b : Bar) (x : Dec),
      closeNoRaise q → changeNoRaise q → b ∈ bars → b.low = some x →
      ∃ wl, (display_stock_info (some q) (some bars)).weekLow = some wl ∧
        wl ∈ bars.filterMap Bar.low ∧ ∀ y ∈ bars.filterMap Bar.low, Dec.le wl y) ∧
    (∀ (q : QuoteData) (bars : List Bar) (c : JVal) (v : Dec),
      q.close = some c → truthy (some c) = true → jfloat c = some v →
      (display_stock_info (some q) (some bars)).currentPrice = some v) ∧
    (∀ (q : QuoteData) (bars : List Bar) (c p : JVal) (cv pv : Dec),
      closeNoRaise q →
      q.change = some c → q.percent_change = some p →
      truthy (some c) = true → truthy (some p) = true →
      jfloat c = some cv → jfloat p = some pv →
      (display_stock_info (some q) (some bars)).dailyChange = some (cv, pv)) ∧
    (∀ df, display_stock_info none df =
      { currentPrice := none, dailyChange := none, weekHigh := none, weekLow := none }) ∧
    (display_stock_info (some c2Quote) (some expected7) =
      { currentPrice := some (dec2 15025), dailyChange := some (dec2 (-150), dec2 (-99)),
        weekHigh := some (dec2 15500), weekLow := some (dec2 14800) } ∧
      (dec2 15025).toRat = 150.25 ∧ (dec2 (-150)).toRat = -1.50 ∧
      (dec2 (-99)).toRat = -0.99 ∧ (dec2 15500).toRat = 155 ∧ (dec2 14800).toRat = 148) := by
  refine ⟨?_, ?_, ?_, ?_, ?_, ?_⟩
  · intro q bars b x hcl hch hb hx
    have hbars : bars ≠ [] := List.ne_nil_of_mem hb
    have hmem : x ∈ bars.filterMap Bar.high := List.mem_filterMap.mpr ⟨b, hb, hx⟩
    obtain ⟨m, hm, hmm, hdom⟩ := max?_spec _ (List.ne_nil_of_mem hmem)
    obtain ⟨cp, hdisp⟩ := display_eq_displayChange q bars hcl
    obtain ⟨dc, hrange⟩ := displayChange_eq_range cp q bars hch
    refine ⟨m, ?_, hmm, hdom⟩
    rw [hdisp, hrange]
    simp [displayRange, hbars, hm]
  · intro q bars b x hcl hch hb hx
    have hbars : bars ≠ [] := List.ne_nil_of_mem hb
    have hmem : x ∈ bars.filterMap Bar.low := List.mem_filterMap.mpr ⟨b, hb, hx⟩
    obtain ⟨m, hm, hmm, hdom⟩ := min?_spec _ (List.ne_nil_of_mem hmem)
    obtain ⟨cp, hdisp⟩ := display_eq_displayChange q bars hcl
    obtain ⟨dc, hrange⟩ := displayChange_eq_range cp q bars hch
    refine ⟨m, ?_, hmm, hdom⟩
    rw [hdisp, hrange]
    simp [displayRange, hbars, hm]
  · intro q bars c v hc ht hv
    have htc : truthy q.close = true := by rw [hc]; exact ht
    have hbv : q.close.bind jfloat = some v := by rw [hc]; exact hv
    simp [display_stock_info, htc, hbv, displayChange_currentPrice]
  · intro q bars c p cv pv hcl hc hp htc htp hvc hvp
    obtain ⟨cp, hdisp⟩ := display_eq_displayChange q bars hcl
    rw [hdisp]
    have ht1 : truthy q.change = true := by rw [hc]; exact htc
    have ht2 : truthy q.percent_change = true := by rw [hp]; exact htp
    have hbc : q.change.bind jfloat = some cv := by rw [hc]; exact hvc
    have hbp : q.percent_change.bind jfloat = some pv := by rw [hp]; exact hvp
    simp [displayChange, ht1, ht2, hbc, hbp, displayRange]
  · intro df
    cases df <;> rfl
  · refine ⟨by decide, ?_, ?_, ?_, ?_, ?_⟩ <;> norm_num [dec2, Dec.toRat]

/-- C2 witness: the 7-day-high part instantiated at the mock quote,
whose metric evaluations all convert, and the mock frame. -/
theorem display_stats_gated_witness :
    closeNoRaise c2Quote ∧ changeNoRaise c2Quote ∧
    ∃ wh, (display_stock_info (some c2Quote) (some expected7)).weekHigh = some wh ∧
      wh ∈ expected7.filterMap Bar.high ∧ ∀ y ∈ expected7.filterMap Bar.high, Dec.le y wh :=
  ⟨by decide, by decide,
    display_stats_gated.1 c2Quote expected7
      (mkBar 740196 (dec2 15140) (dec2 15190) (dec2 15060) (dec2 15110) (dec0 1000700))
      (dec2 15190) (by decide) (by decide) (by decide) rfl⟩

/-- C2 counterexample: with the quote absent, the metrics row displays
nothing, although the series has a 7-day high of 155.00 and a low of
148.00; absence of the quote does block the 7-day range. -/
theorem absent_quote_blocks_range :
    display_stock_info none (some expected7) =
      { currentPrice := none, dailyChange := none, weekHigh := none, weekLow := none } ∧
    (expected7.filterMap Bar.high).max? = some (dec2 15500) ∧
    (expected7.filterMap Bar.low).min? = some (dec2 14800) := by decide

/-- C10: quote fields are tested by truthiness, not presence: a close of
numeric zero, empty string or None omits the current-price metric, and a
change or percent change of numeric zero (a legitimate flat day), empty
string or None omits the daily-change metric entirely. -/
theorem display_truthiness_omission :
    (∀ (q : QuoteData) (bars : List Bar) (n : Nat), q.close = some (JVal.num (Dec.mk 0 n)) →
      (display_stock_info (some q) (some bars)).currentPrice = none) ∧
    (∀ (q : QuoteData) (bars : List Bar),
      q.close = none ∨ q.close = some (JVal.str "") →
      (display_stock_info (some q) (some bars)).currentPrice = none) ∧
    (∀ (q : QuoteData) (bars : List Bar) (n : Nat),
      q.change = some (JVal.num (Dec.mk 0 n)) ∨ q.percent_change = some (JVal.num (Dec.mk 0 n)) →
      (display_stock_info (some q) (some bars)).dailyChange = none) ∧
    (∀ (q : QuoteData) (bars : List Bar),
      q.change = none ∨ q.change = some (JVal.str "") ∨
        q.percent_change = none ∨ q.percent_change = some (JVal.str "") →
      (display_stock_info (some q) (some bars)).dailyChange = none) := by
  refine ⟨?_, ?_, ?_, ?_⟩
  · intro q bars n hc
    exact display_currentPrice_none q bars (by rw [hc]; rfl)
  · intro q bars hc
    rcases hc with h | h <;> exact display_currentPrice_none q bars (by rw [h]; rfl)
  · intro q bars n hc
    rcases hc with h | h <;> exact display_dailyChange_none q bars (by rw [h]; simp [truthy])
  · intro q bars hc
    rcases hc with h | h | h | h <;>
      exact display_dailyChange_none q bars (by rw [h]; simp [truthy])

/-- C10 witness: a legitimate zero daily change with a present percent
change still omits the daily-change metric. -/
theorem display_truthiness_omission_witness :
    (display_stock_info
      (some { status := none, close := some (.str "150.25"),
              change := some (JVal.num (Dec.mk 0 2)), percent_change := some (.str "-0.99") })
      (some expected7)).dailyChange = none :=
  display_truthiness_omission.2.2.1 _ expected7 2 (Or.inl rfl)

/-- C6 (amended): every input whose stripped uppercased form has length
0 or more than 10 causes no network call; every such non-empty raw input
is rejected with the validation error, while the empty raw input falls
through to the instructions view without a validation error. -/
theorem invalid_symbol_no_calls :
    ∀ (raw : String) (btn : Bool) (key : String) (today : Nat)
      (tsO : HttpOutcome TSResponse) (qO : HttpOutcome QuoteData),
      ((pyUpper (pyStrip raw)).length = 0 ∨ (pyUpper (pyStrip raw)).length > 10) →
      (App.main raw btn key today tsO qO).calls = [] ∧
      (raw ≠ "" → (App.main raw btn key today tsO qO).render = Render.validationError) ∧
      (raw = "" → (App.main raw btn key today tsO qO).render = Render.instructions) := by
  intro raw btn key today tsO qO hlen
  by_cases hraw : raw = ""
  · subst hraw
    have : App.main "" btn key today tsO qO = { calls := [], render := Render.instructions } := by
      simp [App.main]
    rw [this]
    exact ⟨rfl, fun hc => absurd rfl hc, fun _ => rfl⟩
  · have hval : (pyUpper (pyStrip raw)).length < 1 ∨ (pyUpper (pyStrip raw)).length > 10 := by
      omega
    have : App.main raw btn key today tsO qO =
        { calls := [], render := Render.validationError } := by
      simp only [App.main, if_pos (And.intro hraw (Or.inr hraw)), if_pos hval]
    rw [this]
    exact ⟨rfl, fun _ => rfl, fun hc => absurd hc hraw⟩

/-- C6 witness: a 13-character symbol is rejected with the validation
error and zero calls. -/
theorem invalid_symbol_no_calls_witness :
    ((pyUpper (pyStrip "TOOLONGSYMBOL")).length = 0 ∨
      (pyUpper (pyStrip "TOOLONGSYMBOL")).length > 10) ∧
    (App.main "TOOLONGSYMBOL" false "demo" 740206 (HttpOutcome.exn "x")
        (HttpOutcome.exn "x")).calls = [] ∧
    ("TOOLONGSYMBOL" ≠ "" →
      (App.main "TOOLONGSYMBOL" false "demo" 740206 (HttpOutcome.exn "x")
        (HttpOutcome.exn "x")).render = Render.validationError) ∧
    ("TOOLONGSYMBOL" = "" →
      (App.main "TOOLONGSYMBOL" false "demo" 740206 (HttpOutcome.exn "x")
        (HttpOutcome.exn "x")).render = Render.instructions) :=
  ⟨by decide, invalid_symbol_no_calls "TOOLONGSYMBOL" false "demo" 740206
    (HttpOutcome.exn "x") (HttpOutcome.exn "x") (by decide)⟩

/-- C6 counterexample: the empty input has normalized length 0 but
renders the instructions view, not the validation error (and makes no
network call). -/
theorem empty_input_instructions :
    (pyUpper (pyStrip "")).length = 0 ∧
    App.main "" false "demo" 740206 (HttpOutcome.exn "x") (HttpOutcome.exn "x") =
      { calls := [], render := Render.instructions } := by decide

/-- C3 (amended): for every quote-fetch failure (raised transport
error, HTTP error status 400-599, undecodable body, or explicit API
error status), fetch_current_quote returns none and the lookup still
succeeds: the frame renders and the quote metrics are all absent. -/
theorem quote_failure_nonfatal :
    ∀ (raw : String) (btn : Bool) (key : String) (today : Nat)
      (tsO : HttpOutcome TSResponse) (qO : HttpOutcome QuoteData) (df : List Bar),
      raw ≠ "" →
      1 ≤ (pyUpper (pyStrip raw)).length → (pyUpper (pyStrip raw)).length ≤ 10 →
      fetch_stock_data (pyUpper (pyStrip raw)) tsO = (some df, none) → df ≠ [] →
      quoteFetchFails qO = true →
      fetch_current_quote qO = none ∧
      (App.main raw btn key today tsO qO).render =
        Render.success
          { currentPrice := none, dailyChange := none, weekHigh := none, weekLow := none }
          df := by
  intro raw btn key today tsO qO df hraw h1 h10 hfetch hdf hq
  have hquote : fetch_current_quote qO = none := by
    cases qO with
    | exn m => rfl
    | resp code body =>
      simp only [quoteFetchFails] at hq
      by_cases hcode : httpError code
      · simp [fetch_current_quote, if_pos hcode]
      · cases body with
        | invalid m => simp [fetch_current_quote, if_neg hcode]
        | json q =>
          have hst : q.status = some "error" := by
            rcases Bool.or_eq_true_iff.mp hq with h | h
            · exact absurd (of_decide_eq_true h) hcode
            · exact of_decide_eq_true h
          simp [fetch_current_quote, if_neg hcode, hst]
  refine ⟨hquote, ?_⟩
  have hval : ¬ ((pyUpper (pyStrip raw)).length < 1 ∨ (pyUpper (pyStrip raw)).length > 10) := by
    omega
  simp only [App.main, if_pos (And.intro hraw (Or.inr hraw)), if_neg hval, hfetch, hquote]
  simp only [errTruthy, if_neg hdf]
  simp [display_stock_info, hdf]

/-- C3 witness: an explicit quote error status degrades to no quote
while the mock series still renders. -/
theorem quote_failure_nonfatal_witness :
    fetch_current_quote (HttpOutcome.resp 200 (Body.json qErrResp)) = none ∧
    (App.main "aapl" true "demo" 740206 (HttpOutcome.resp 200 (Body.json mockResp9))
        (HttpOutcome.resp 200 (Body.json qErrResp))).render =
      Render.success
        { currentPrice := none, dailyChange := none, weekHigh := none, weekLow := none }
        expected7 :=
  quote_failure_nonfatal "aapl" true "demo" 740206 (HttpOutcome.resp 200 (Body.json mockResp9))
    (HttpOutcome.resp 200 (Body.json qErrResp)) expected7 (by decide) (by decide) (by decide)
    (by decide) (by decide) (by decide)

/-- C3 counterexample: a 301 response with a decodable, non-error quote
body is returned as a quote, so a non-2xx HTTP response is not a
quote-fetch failure in the code. -/
theorem quote_redirect_not_failure :
    fetch_current_quote (HttpOutcome.resp 301 (Body.json qOkResp)) = some qOkResp ∧
    ¬ (200 ≤ 301 ∧ 301 < 300) := by decide
